import Mathlib

/-!
Verification of the result-set traversal layer (`src/cursor.rs`) of the
odbc binding: `Cursor`, the `RowSetBuffer` capability and `RowSetCursor`.

The `Statement` handle lives in `crate::handles`, outside the provided
sources; its primitives are modelled from the spec (each such definition
carries a `Modelled from the spec:` note).  The `Cursor` and
`RowSetCursor` operations below are direct translations of the Rust
source: every function mirrors the corresponding `impl` item line by
line, with Rust's `Result` embedded as `Except`, `&mut` state embedded
as explicit state passing, and the calls issued to the Statement handle
recorded in an explicit trace so that "exactly once" properties can be
stated.
-/

namespace OdbcCursor

/-- Opaque driver error, carrying the diagnostic code the Statement
handle produced.  The cursor layer never inspects it. -/
structure Error where
  code : Nat
deriving DecidableEq, Repr

/-- Output-only column descriptor: name, nullable flag, SQL type, size,
decimal digits.  Modelled from the spec: the `ColumnDescription` type is
declared outside `src/cursor.rs`. -/
structure ColumnDescription where
  name : List Nat
  nullable : Bool
  dataType : Nat
  columnSize : Nat
  decimalDigits : Nat
deriving DecidableEq, Repr

/-- Arguments of a raw column binding as passed to `bind_col`:
C data type, buffer address, buffer byte length, indicator address.
Pointers are modelled by their addresses. -/
structure BindingArgs where
  targetType : Nat
  targetValue : Nat
  targetLength : Int
  indicator : Nat
deriving DecidableEq, Repr

/-- One call issued to the Statement handle, with the arguments it was
given.  Traces of these record every interaction of the cursor layer
with the handle. -/
inductive HandleCall where
  | closeCursor
  | describeCol (columnNumber : Nat)
  | numResultCols
  | fetch
  | setRowArraySize (size : Nat)
  | setNumRowsFetched (numRows : Nat)
  | setRowBindType (rowSize : Nat)
  | unbindCols
  | bindCol (columnNumber : Nat) (args : BindingArgs)
  | isUnsignedColumn (columnNumber : Nat)
  | colDataType (columnNumber : Nat)
  | colOctetLength (columnNumber : Nat)
  | colDisplaySize (columnNumber : Nat)
deriving DecidableEq, Repr

/-- Modelled from the spec: the Statement handle of `crate::handles` is
an external stateful resource.  Its observable state is the list of
currently registered column bindings and the remaining outcomes of the
result-set traversal (`fetchResults`; an empty list means the result set
is exhausted, and per the spec a fetch then reports "no row" without
error).  Each `...R` field is the response the driver gives to the
corresponding primitive, as a function of the caller's arguments. -/
structure Statement where
  fetchResults : List (Except Error Bool)
  bindings : List (Nat × BindingArgs)
  closeCursorR : Except Error Unit
  unbindColsR : Except Error Unit
  describeColR : Nat → Except Error ColumnDescription
  numResultColsR : Except Error Int
  setRowArraySizeR : Nat → Except Error Unit
  setNumRowsFetchedR : Nat → Except Error Unit
  setRowBindTypeR : Nat → Except Error Unit
  bindColR : Nat → BindingArgs → Except Error Unit
  isUnsignedColumnR : Nat → Except Error Bool
  colDataTypeR : Nat → Except Error Nat
  colOctetLengthR : Nat → Except Error Int
  colDisplaySizeR : Nat → Except Error Int

/-- Modelled from the spec: `closeCursor() -> Result`.  Issues one
close-cursor call to the driver. -/
def Statement.close_cursor (s : Statement) :
    Except Error Unit × Statement × List HandleCall :=
  (s.closeCursorR, s, [HandleCall.closeCursor])

/-- Modelled from the spec: `describeColumn(index, out descriptor)`.
On success the out-parameter holds the populated descriptor, which we
return directly. -/
def Statement.describe_col (s : Statement) (columnNumber : Nat) :
    Except Error ColumnDescription × Statement × List HandleCall :=
  (s.describeColR columnNumber, s, [HandleCall.describeCol columnNumber])

/-- Modelled from the spec: `columnCount() -> Result<count>`. -/
def Statement.num_result_cols (s : Statement) :
    Except Error Int × Statement × List HandleCall :=
  (s.numResultColsR, s, [HandleCall.numResultCols])

/-- Modelled from the spec: `fetch() -> Result<hasRow>`.  Advances the
result-set traversal by consuming the next outcome; once the result set
is exhausted every call returns "no row" (`false`) without error. -/
def Statement.fetch (s : Statement) :
    Except Error Bool × Statement × List HandleCall :=
  match s.fetchResults with
  | [] => (Except.ok false, s, [HandleCall.fetch])
  | r :: rest => (r, { s with fetchResults := rest }, [HandleCall.fetch])

/-- Modelled from the spec: `setRowArraySize(n) -> Result`. -/
def Statement.set_row_array_size (s : Statement) (size : Nat) :
    Except Error Unit × Statement × List HandleCall :=
  (s.setRowArraySizeR size, s, [HandleCall.setRowArraySize size])

/-- Modelled from the spec: `setRowsFetchedTarget(ref) -> Result`.  The
registered integer is externally owned and referenced by address
(`numRows`, like the other pointer arguments); the call forwards that
address to the driver. -/
def Statement.set_num_rows_fetched (s : Statement) (numRows : Nat) :
    Except Error Unit × Statement × List HandleCall :=
  (s.setNumRowsFetchedR numRows, s, [HandleCall.setNumRowsFetched numRows])

/-- Modelled from the spec: `setRowBindingOrientation(stride) -> Result`. -/
def Statement.set_row_bind_type (s : Statement) (rowSize : Nat) :
    Except Error Unit × Statement × List HandleCall :=
  (s.setRowBindTypeR rowSize, s, [HandleCall.setRowBindType rowSize])

/-- Modelled from the spec: `unbindAllColumns() -> Result` releases all
column bindings except the bookmark column (index 0). -/
def Statement.unbind_cols (s : Statement) :
    Except Error Unit × Statement × List HandleCall :=
  match s.unbindColsR with
  | Except.ok _ =>
      (Except.ok (), { s with bindings := s.bindings.filter (fun b => b.1 == 0) },
        [HandleCall.unbindCols])
  | Except.error e => (Except.error e, s, [HandleCall.unbindCols])

/-- Modelled from the spec: `bindColumn(index, cType, ptr, byteLen,
indicatorPtr) -> Result` registers a buffer for the column, replacing
any previous binding of the same index. -/
def Statement.bind_col (s : Statement) (columnNumber : Nat) (args : BindingArgs) :
    Except Error Unit × Statement × List HandleCall :=
  match s.bindColR columnNumber args with
  | Except.ok _ =>
      (Except.ok (),
        { s with bindings :=
            (columnNumber, args) :: s.bindings.filter (fun b => b.1 ≠ columnNumber) },
        [HandleCall.bindCol columnNumber args])
  | Except.error e => (Except.error e, s, [HandleCall.bindCol columnNumber args])

/-- Modelled from the spec: `isColumnUnsigned(index) -> Result<bool>`. -/
def Statement.is_unsigned_column (s : Statement) (columnNumber : Nat) :
    Except Error Bool × Statement × List HandleCall :=
  (s.isUnsignedColumnR columnNumber, s, [HandleCall.isUnsignedColumn columnNumber])

/-- Modelled from the spec: `columnSqlType(index) -> Result<type>`. -/
def Statement.col_data_type (s : Statement) (columnNumber : Nat) :
    Except Error Nat × Statement × List HandleCall :=
  (s.colDataTypeR columnNumber, s, [HandleCall.colDataType columnNumber])

/-- Modelled from the spec: `columnOctetLength(index) -> Result<length>`. -/
def Statement.col_octet_length (s : Statement) (columnNumber : Nat) :
    Except Error Int × Statement × List HandleCall :=
  (s.colOctetLengthR columnNumber, s, [HandleCall.colOctetLength columnNumber])

/-- Modelled from the spec: `columnDisplaySize(index) -> Result<size>`. -/
def Statement.col_display_size (s : Statement) (columnNumber : Nat) :
    Except Error Int × Statement × List HandleCall :=
  (s.colDisplaySizeR columnNumber, s, [HandleCall.colDisplaySize columnNumber])

/-- `pub struct Cursor<'open_connection> { statement: Statement<'open_connection> }` -/
structure Cursor where
  statement : Statement

/-- Outcome of running a Rust destructor: either it returns normally or
it raises an unrecoverable condition carrying the cleanup error. -/
inductive DropOutcome where
  | normal
  | panicked (e : Error)
deriving DecidableEq, Repr

/-- `Cursor::new(statement)` (crate-private constructor). -/
def Cursor.new (statement : Statement) : Cursor :=
  { statement := statement }

/-- `impl Drop for Cursor`: calls `self.statement.close_cursor()`; on
error, raises unless a failure is already unwinding the stack
(`std::thread::panicking()`), in which case the cleanup error is
ignored so as not to mask the original failure. -/
def Cursor.drop (isPanicking : Bool) (c : Cursor) :
    DropOutcome × Cursor × List HandleCall :=
  match c.statement.close_cursor with
  | (Except.ok _, s, tr) => (DropOutcome.normal, Cursor.new s, tr)
  | (Except.error e, s, tr) =>
      if isPanicking then (DropOutcome.normal, Cursor.new s, tr)
      else (DropOutcome.panicked e, Cursor.new s, tr)

/-- `Cursor::describe_col`. -/
def Cursor.describe_col (c : Cursor) (columnNumber : Nat) :
    Except Error ColumnDescription × Cursor × List HandleCall :=
  match c.statement.describe_col columnNumber with
  | (r, s, tr) => (r, Cursor.new s, tr)

/-- `Cursor::num_result_cols`. -/
def Cursor.num_result_cols (c : Cursor) :
    Except Error Int × Cursor × List HandleCall :=
  match c.statement.num_result_cols with
  | (r, s, tr) => (r, Cursor.new s, tr)

/-- `Cursor::fetch`. -/
def Cursor.fetch (c : Cursor) :
    Except Error Bool × Cursor × List HandleCall :=
  match c.statement.fetch with
  | (r, s, tr) => (r, Cursor.new s, tr)

/-- `Cursor::set_row_array_size`. -/
def Cursor.set_row_array_size (c : Cursor) (size : Nat) :
    Except Error Unit × Cursor × List HandleCall :=
  match c.statement.set_row_array_size size with
  | (r, s, tr) => (r, Cursor.new s, tr)

/-- `Cursor::set_num_rows_fetched`: forwards the `num_rows: &mut ULen`
reference (modelled by its address) to the handle. -/
def Cursor.set_num_rows_fetched (c : Cursor) (numRows : Nat) :
    Except Error Unit × Cursor × List HandleCall :=
  match c.statement.set_num_rows_fetched numRows with
  | (r, s, tr) => (r, Cursor.new s, tr)

/-- `Cursor::set_row_bind_type`. -/
def Cursor.set_row_bind_type (c : Cursor) (rowSize : Nat) :
    Except Error Unit × Cursor × List HandleCall :=
  match c.statement.set_row_bind_type rowSize with
  | (r, s, tr) => (r, Cursor.new s, tr)

/-- `Cursor::unbind_cols`. -/
def Cursor.unbind_cols (c : Cursor) :
    Except Error Unit × Cursor × List HandleCall :=
  match c.statement.unbind_cols with
  | (r, s, tr) => (r, Cursor.new s, tr)

/-- `Cursor::bind_col`. -/
def Cursor.bind_col (c : Cursor) (columnNumber : Nat) (args : BindingArgs) :
    Except Error Unit × Cursor × List HandleCall :=
  match c.statement.bind_col columnNumber args with
  | (r, s, tr) => (r, Cursor.new s, tr)

/-- `Cursor::is_unsigned_column`. -/
def Cursor.is_unsigned_column (c : Cursor) (columnNumber : Nat) :
    Except Error Bool × Cursor × List HandleCall :=
  match c.statement.is_unsigned_column columnNumber with
  | (r, s, tr) => (r, Cursor.new s, tr)

/-- `Cursor::col_data_type`. -/
def Cursor.col_data_type (c : Cursor) (columnNumber : Nat) :
    Except Error Nat × Cursor × List HandleCall :=
  match c.statement.col_data_type columnNumber with
  | (r, s, tr) => (r, Cursor.new s, tr)

/-- `Cursor::col_octet_length`. -/
def Cursor.col_octet_length (c : Cursor) (columnNumber : Nat) :
    Except Error Int × Cursor × List HandleCall :=
  match c.statement.col_octet_length columnNumber with
  | (r, s, tr) => (r, Cursor.new s, tr)

/-- `Cursor::col_display_size`. -/
def Cursor.col_display_size (c : Cursor) (columnNumber : Nat) :
    Except Error Int × Cursor × List HandleCall :=
  match c.statement.col_display_size columnNumber with
  | (r, s, tr) => (r, Cursor.new s, tr)

/-- The `unsafe trait RowSetBuffer` capability: one operation,
`bind_to_cursor(&mut self, cursor: &mut Cursor) -> Result<(), Error>`.
Embedded as a record of the implementation; since the Rust call mutates
both the buffer and the cursor even when it fails, the embedded
operation returns the outcome together with both updated states and the
trace of handle calls it issued. -/
structure RowSetBufferImpl (B : Type) where
  bind_to_cursor : B → Cursor → Except Error Unit × B × Cursor × List HandleCall

/-- `pub struct RowSetCursor<'r, 'o, B> { buffer: &'r mut B, cursor: &'r mut Cursor<'o> }` -/
structure RowSetCursor (B : Type) where
  buffer : B
  cursor : Cursor

/-- `RowSetCursor::new(buffer, cursor)`. -/
def RowSetCursor.new {B : Type} (buffer : B) (cursor : Cursor) : RowSetCursor B :=
  { buffer := buffer, cursor := cursor }

/-- `Cursor::bind_row_set_buffer`: invokes the buffer's
`bind_to_cursor` against this cursor; the `?` operator returns the
error unchanged, otherwise a `RowSetCursor` pairing the buffer and the
cursor is produced.  The mutated buffer and cursor states are returned
alongside so the error path remains observable. -/
def Cursor.bind_row_set_buffer {B : Type} (impl : RowSetBufferImpl B)
    (c : Cursor) (rowSetBuffer : B) :
    Except Error (RowSetCursor B) × B × Cursor × List HandleCall :=
  match impl.bind_to_cursor rowSetBuffer c with
  | (Except.ok _, buf, c2, tr) =>
      (Except.ok (RowSetCursor.new buf c2), buf, c2, tr)
  | (Except.error e, buf, c2, tr) => (Except.error e, buf, c2, tr)

/-- `RowSetCursor::fetch`: calls the underlying cursor's `fetch`; on
`Ok(true)` returns `Some(&*self.buffer)`, on `Ok(false)` returns
`None`, and `?` propagates an error unchanged. -/
def RowSetCursor.fetch {B : Type} (rc : RowSetCursor B) :
    Except Error (Option B) × RowSetCursor B × List HandleCall :=
  match rc.cursor.fetch with
  | (Except.ok true, c2, tr) =>
      (Except.ok (some rc.buffer), RowSetCursor.new rc.buffer c2, tr)
  | (Except.ok false, c2, tr) =>
      (Except.ok none, RowSetCursor.new rc.buffer c2, tr)
  | (Except.error e, c2, tr) =>
      (Except.error e, RowSetCursor.new rc.buffer c2, tr)

/-- `impl Drop for RowSetCursor`: calls `self.cursor.unbind_cols()`; on
error, raises unless a failure is already unwinding the stack, in which
case the cleanup error is ignored so as not to mask the original
failure. -/
def RowSetCursor.drop {B : Type} (isPanicking : Bool) (rc : RowSetCursor B) :
    DropOutcome × Cursor × List HandleCall :=
  match rc.cursor.unbind_cols with
  | (Except.ok _, c2, tr) => (DropOutcome.normal, c2, tr)
  | (Except.error e, c2, tr) =>
      if isPanicking then (DropOutcome.normal, c2, tr)
      else (DropOutcome.panicked e, c2, tr)

/-- A result set is exhausted when no fetch outcomes remain; every
further fetch reports "no row". -/
def Cursor.exhausted (c : Cursor) : Bool :=
  c.statement.fetchResults.isEmpty

/-- Repeated fetching: the list of outcomes of `n` successive `fetch`
calls together with the final cursor state. -/
def Cursor.fetchN (c : Cursor) : Nat → List (Except Error Bool) × Cursor
  | 0 => ([], c)
  | n + 1 =>
      match c.fetch with
      | (r, c2, _) =>
          match c2.fetchN n with
          | (rs, c3) => (r :: rs, c3)

/-! Concrete sample values used to exercise the definitions. -/

/-- A driver behaviour where every primitive succeeds and two rows
remain to be fetched. -/
def okStatement : Statement where
  fetchResults := [Except.ok true, Except.ok true]
  bindings := []
  closeCursorR := Except.ok ()
  unbindColsR := Except.ok ()
  describeColR := fun _ =>
    Except.ok { name := [65], nullable := true, dataType := 2,
                columnSize := 10, decimalDigits := 0 }
  numResultColsR := Except.ok 3
  setRowArraySizeR := fun _ => Except.ok ()
  setNumRowsFetchedR := fun _ => Except.ok ()
  setRowBindTypeR := fun _ => Except.ok ()
  bindColR := fun _ _ => Except.ok ()
  isUnsignedColumnR := fun _ => Except.ok true
  colDataTypeR := fun _ => Except.ok 4
  colOctetLengthR := fun _ => Except.ok 8
  colDisplaySizeR := fun _ => Except.ok 11

/-- Sample binding arguments. -/
def argsA : BindingArgs :=
  { targetType := 1, targetValue := 4096, targetLength := 8, indicator := 8192 }

/-- A second set of sample binding arguments. -/
def argsB : BindingArgs :=
  { targetType := 2, targetValue := 5120, targetLength := 16, indicator := 9216 }

/-- A driver behaviour whose close-cursor primitive fails. -/
def failCloseStatement : Statement :=
  { okStatement with closeCursorR := Except.error ⟨5⟩ }

/-- A driver behaviour whose unbind primitive fails. -/
def failUnbindStatement : Statement :=
  { okStatement with unbindColsR := Except.error ⟨6⟩ }

/-- A driver state with a bookmark binding and two ordinary bindings. -/
def boundStatement : Statement :=
  { okStatement with bindings := [(0, argsA), (1, argsB), (2, argsA)] }

/-- A driver state whose result set is exhausted. -/
def exhaustedStatement : Statement :=
  { okStatement with fetchResults := [] }

/-- A row-set buffer implementation (over `Nat` buffers) that binds
column 1 and succeeds. -/
def okBindImpl : RowSetBufferImpl Nat where
  bind_to_cursor := fun buf c =>
    match c.bind_col 1 argsA with
    | (Except.ok _, c2, tr) => (Except.ok (), buf, c2, tr)
    | (Except.error e, c2, tr) => (Except.error e, buf, c2, tr)

/-- A row-set buffer implementation that binds column 1 and then
fails, leaving the binding registered. -/
def failAfterBindImpl : RowSetBufferImpl Nat where
  bind_to_cursor := fun buf c =>
    match c.bind_col 1 argsA with
    | (_, c2, tr) => (Except.error ⟨9⟩, buf, c2, tr)

/-- The cursor state reached from `okStatement` after binding
column 1 with `argsA`. -/
def boundOneCursor : Cursor :=
  Cursor.new { okStatement with bindings := [(1, argsA)] }

/-! Helper lemmas shared by the claim theorems. -/

/-- The fetch primitive issues exactly one handle call. -/
theorem Statement.fetch_trace_single (s : Statement) :
    (s.fetch).2.2 = [HandleCall.fetch] := by
  cases hf : s.fetchResults <;> simp [Statement.fetch, hf]

/-- `Cursor::fetch` issues exactly one fetch call to the handle. -/
theorem Cursor.fetch_call_trace (c : Cursor) :
    (c.fetch).2.2 = [HandleCall.fetch] := by
  have h := Statement.fetch_trace_single c.statement
  rcases hf : c.statement.fetch with ⟨r, s, tr⟩
  rw [hf] at h
  simp [Cursor.fetch, hf]
  simpa using h

/-- The unbind primitive issues exactly one handle call. -/
theorem Statement.unbind_trace_single (s : Statement) :
    (s.unbind_cols).2.2 = [HandleCall.unbindCols] := by
  cases hu : s.unbindColsR <;> simp [Statement.unbind_cols, hu]

/-- `Cursor::unbind_cols` issues exactly one unbind call to the handle. -/
theorem Cursor.unbind_call_trace (c : Cursor) :
    (c.unbind_cols).2.2 = [HandleCall.unbindCols] := by
  have h := Statement.unbind_trace_single c.statement
  rcases hu : c.statement.unbind_cols with ⟨r, s, tr⟩
  rw [hu] at h
  simp [Cursor.unbind_cols, hu]
  simpa using h

/-- The bind primitive issues exactly one handle call, carrying the
caller's arguments. -/
theorem Statement.bind_col_trace (s : Statement) (n : Nat) (args : BindingArgs) :
    (s.bind_col n args).2.2 = [HandleCall.bindCol n args] := by
  cases hb : s.bindColR n args <;> simp [Statement.bind_col, hb]

/-- On an exhausted cursor a fetch reports "no row" and leaves the
cursor unchanged. -/
theorem Cursor.fetch_of_exhausted (c : Cursor) (h : c.exhausted = true) :
    c.fetch = (Except.ok false, c, [HandleCall.fetch]) := by
  have hf : c.statement.fetchResults = [] := by
    simpa [Cursor.exhausted] using h
  simp [Cursor.fetch, Statement.fetch, Cursor.new, hf]

/-- On an exhausted cursor every fetch of a repeated sequence reports
"no row" and the cursor is unchanged throughout. -/
theorem Cursor.fetchN_of_exhausted (c : Cursor) (h : c.exhausted = true) :
    ∀ n : Nat, c.fetchN n = (List.replicate n (Except.ok false), c) := by
  intro n
  induction n with
  | zero => rfl
  | succ n ih =>
      rw [Cursor.fetchN, Cursor.fetch_of_exhausted c h]
      simp [ih, List.replicate]

/-! Claim theorems. -/

/-- Claim C1: destroying a `RowSetCursor` invokes `unbind_cols` on the
underlying cursor exactly once, whatever way its scope is exited
(`isPanicking` ranges over unwinding and non-unwinding exits); no
close-cursor call is issued, and when the unbind primitive succeeds
the cursor is left with no non-bookmark bindings. -/
theorem rowSetCursor_drop_unbinds_exactly_once {B : Type}
    (rc : RowSetCursor B) (isPanicking : Bool) :
    (RowSetCursor.drop isPanicking rc).2.2 = [HandleCall.unbindCols]
    ∧ ((RowSetCursor.drop isPanicking rc).2.2).count HandleCall.unbindCols = 1
    ∧ HandleCall.closeCursor ∉ (RowSetCursor.drop isPanicking rc).2.2
    ∧ (rc.cursor.statement.unbindColsR = Except.ok () →
        ((RowSetCursor.drop isPanicking rc).2.1).statement.bindings
          = rc.cursor.statement.bindings.filter (fun b => b.1 == 0)
        ∧ ∀ b ∈ ((RowSetCursor.drop isPanicking rc).2.1).statement.bindings,
            b.1 = 0) := by
  rcases hu : rc.cursor.statement.unbindColsR with e | u
  · cases isPanicking <;>
      refine ⟨?_, ?_, ?_, ?_⟩ <;>
        simp [RowSetCursor.drop, Cursor.unbind_cols, Statement.unbind_cols, hu]
  · refine ⟨?_, ?_, ?_, ?_⟩ <;>
      simp [RowSetCursor.drop, Cursor.unbind_cols, Statement.unbind_cols,
        Cursor.new, hu]

/-- Witness for C1 at a cursor holding a bookmark binding and two
ordinary bindings: one unbind call is issued and only the bookmark
binding survives. -/
theorem rowSetCursor_drop_unbinds_exactly_once_witness :
    (RowSetCursor.drop false (RowSetCursor.new 0 (Cursor.new boundStatement))).2.2
      = [HandleCall.unbindCols]
    ∧ ((RowSetCursor.drop false
          (RowSetCursor.new 0 (Cursor.new boundStatement))).2.1).statement.bindings
      = [(0, argsA)] := by
  have h := rowSetCursor_drop_unbinds_exactly_once
    (RowSetCursor.new 0 (Cursor.new boundStatement)) false
  exact ⟨h.1, ((h.2.2.2 rfl).1).trans (by decide)⟩

/-- Claim C3: dropping a `Cursor` issues exactly one close-cursor call
to the underlying Statement handle, on every destruction path. -/
theorem cursor_drop_closes_exactly_once (c : Cursor) (isPanicking : Bool) :
    (Cursor.drop isPanicking c).2.2 = [HandleCall.closeCursor]
    ∧ ((Cursor.drop isPanicking c).2.2).count HandleCall.closeCursor = 1 := by
  rcases hc : c.statement.closeCursorR with e | u
  · cases isPanicking <;>
      constructor <;>
        simp [Cursor.drop, Statement.close_cursor, hc]
  · constructor <;> simp [Cursor.drop, Statement.close_cursor, hc]

/-- Claim C4: for both destruction-time cleanup actions, a cleanup
failure while a failure is already unwinding the stack is ignored
(the drop returns normally, never masking the in-flight failure), and a
cleanup failure while no failure is unwinding raises the cleanup error
as an unrecoverable condition. -/
theorem drop_cleanup_failure_policy {B : Type} (c : Cursor) (rc : RowSetCursor B) :
    (Cursor.drop true c).1 = DropOutcome.normal
    ∧ (∀ e, c.statement.closeCursorR = Except.error e →
        (Cursor.drop false c).1 = DropOutcome.panicked e)
    ∧ (RowSetCursor.drop true rc).1 = DropOutcome.normal
    ∧ (∀ e, rc.cursor.statement.unbindColsR = Except.error e →
        (RowSetCursor.drop false rc).1 = DropOutcome.panicked e) := by
  refine ⟨?_, ?_, ?_, ?_⟩
  · rcases hc : c.statement.closeCursorR with e | u <;>
      simp [Cursor.drop, Statement.close_cursor, hc]
  · intro e he
    simp [Cursor.drop, Statement.close_cursor, he]
  · rcases hu : rc.cursor.statement.unbindColsR with e | u <;>
      simp [RowSetCursor.drop, Cursor.unbind_cols, Statement.unbind_cols, hu]
  · intro e he
    simp [RowSetCursor.drop, Cursor.unbind_cols, Statement.unbind_cols, he]

/-- Witness for C4 at driver behaviours whose cleanup primitives fail
with errors 5 and 6 respectively. -/
theorem drop_cleanup_failure_policy_witness :
    (Cursor.drop true (Cursor.new failCloseStatement)).1 = DropOutcome.normal
    ∧ (Cursor.drop false (Cursor.new failCloseStatement)).1
        = DropOutcome.panicked ⟨5⟩
    ∧ (RowSetCursor.drop true
        (RowSetCursor.new 0 (Cursor.new failUnbindStatement))).1
        = DropOutcome.normal
    ∧ (RowSetCursor.drop false
        (RowSetCursor.new 0 (Cursor.new failUnbindStatement))).1
        = DropOutcome.panicked ⟨6⟩ := by
  have h := drop_cleanup_failure_policy (Cursor.new failCloseStatement)
    (RowSetCursor.new 0 (Cursor.new failUnbindStatement))
  exact ⟨h.1, h.2.1 ⟨5⟩ rfl, h.2.2.1, h.2.2.2 ⟨6⟩ rfl⟩

/-- Claim C2: `RowSetCursor::fetch` issues exactly one fetch to the
underlying cursor; when that fetch reports a rowset it returns `some`
of the very buffer attached at construction, when it reports
exhaustion it returns `none` without error, and when it fails the
error is returned unchanged. -/
theorem rowSetCursor_fetch_spec {B : Type} (buf : B) (c : Cursor) :
    ((RowSetCursor.new buf c).fetch).2.2 = [HandleCall.fetch]
    ∧ ((c.fetch).1 = Except.ok true →
        ((RowSetCursor.new buf c).fetch).1 = Except.ok (some buf))
    ∧ ((c.fetch).1 = Except.ok false →
        ((RowSetCursor.new buf c).fetch).1 = Except.ok none)
    ∧ (∀ e, (c.fetch).1 = Except.error e →
        ((RowSetCursor.new buf c).fetch).1 = Except.error e) := by
  have htr := Cursor.fetch_call_trace c
  rcases hcf : c.fetch with ⟨r, c2, tr⟩
  rw [hcf] at htr
  simp only at htr
  rcases r with e | b
  · refine ⟨?_, ?_, ?_, ?_⟩
    · simp [RowSetCursor.fetch, RowSetCursor.new, hcf, htr]
    · intro h; simp at h
    · intro h; simp at h
    · intro e2 h
      simp only at h
      cases h
      simp [RowSetCursor.fetch, RowSetCursor.new, hcf]
  · cases b
    · refine ⟨?_, ?_, ?_, ?_⟩
      · simp [RowSetCursor.fetch, RowSetCursor.new, hcf, htr]
      · intro h; simp at h
      · intro h
        simp [RowSetCursor.fetch, RowSetCursor.new, hcf]
      · intro e2 h; simp at h
    · refine ⟨?_, ?_, ?_, ?_⟩
      · simp [RowSetCursor.fetch, RowSetCursor.new, hcf, htr]
      · intro h
        simp [RowSetCursor.fetch, RowSetCursor.new, hcf]
      · intro h; simp at h
      · intro e2 h; simp at h

/-- Witness for C2: on a cursor with a pending row, fetching through a
row-set cursor built over buffer `37` yields `some 37` by one handle
fetch call. -/
theorem rowSetCursor_fetch_spec_witness :
    ((RowSetCursor.new 37 (Cursor.new okStatement)).fetch).1 = Except.ok (some 37)
    ∧ ((RowSetCursor.new 37 (Cursor.new okStatement)).fetch).2.2
        = [HandleCall.fetch] :=
  ⟨(rowSetCursor_fetch_spec 37 (Cursor.new okStatement)).2.1 rfl,
   (rowSetCursor_fetch_spec 37 (Cursor.new okStatement)).1⟩

/-- Claim C5: every cursor operation that talks to the Statement handle
invokes the corresponding handle primitive exactly once with the
caller's arguments unchanged, and returns the handle's success value or
error unchanged; no operation retries. -/
theorem cursor_ops_delegate_unchanged (c : Cursor) (n sz rs nr : Nat)
    (args : BindingArgs) :
    c.describe_col n
      = (c.statement.describeColR n, c, [HandleCall.describeCol n])
    ∧ c.num_result_cols
      = (c.statement.numResultColsR, c, [HandleCall.numResultCols])
    ∧ (c.fetch).1 = (c.statement.fetch).1
    ∧ (c.fetch).2.2 = [HandleCall.fetch]
    ∧ c.set_row_array_size sz
      = (c.statement.setRowArraySizeR sz, c, [HandleCall.setRowArraySize sz])
    ∧ c.set_num_rows_fetched nr
      = (c.statement.setNumRowsFetchedR nr, c, [HandleCall.setNumRowsFetched nr])
    ∧ c.set_row_bind_type rs
      = (c.statement.setRowBindTypeR rs, c, [HandleCall.setRowBindType rs])
    ∧ (c.unbind_cols).1 = (c.statement.unbind_cols).1
    ∧ (c.unbind_cols).2.2 = [HandleCall.unbindCols]
    ∧ (c.bind_col n args).1 = (c.statement.bind_col n args).1
    ∧ (c.bind_col n args).2.2 = [HandleCall.bindCol n args]
    ∧ c.is_unsigned_column n
      = (c.statement.isUnsignedColumnR n, c, [HandleCall.isUnsignedColumn n])
    ∧ c.col_data_type n
      = (c.statement.colDataTypeR n, c, [HandleCall.colDataType n])
    ∧ c.col_octet_length n
      = (c.statement.colOctetLengthR n, c, [HandleCall.colOctetLength n])
    ∧ c.col_display_size n
      = (c.statement.colDisplaySizeR n, c, [HandleCall.colDisplaySize n]) := by
  refine ⟨rfl, rfl, rfl, Cursor.fetch_call_trace c, rfl, rfl, rfl, rfl,
    Cursor.unbind_call_trace c, rfl, ?_, rfl, rfl, rfl, rfl⟩
  have h := Statement.bind_col_trace c.statement n args
  rcases hb : c.statement.bind_col n args with ⟨r, s, tr⟩
  rw [hb] at h
  simp [Cursor.bind_col, hb]
  simpa using h

/-- Claim C7: once a cursor's result set is exhausted, every call of
any sequence of repeated fetches reports "no row" without error, the
cursor stays exhausted, and a row-set cursor over it returns `none`. -/
theorem fetch_idempotent_at_exhaustion {B : Type} (c : Cursor) (buf : B)
    (h : c.exhausted = true) (n : Nat) :
    (c.fetchN n).1 = List.replicate n (Except.ok false)
    ∧ ((c.fetchN n).2).exhausted = true
    ∧ ((RowSetCursor.new buf c).fetch).1 = Except.ok none := by
  have hN := Cursor.fetchN_of_exhausted c h n
  refine ⟨by rw [hN], by rw [hN]; exact h, ?_⟩
  simp [RowSetCursor.fetch, RowSetCursor.new, Cursor.fetch_of_exhausted c h]

/-- Witness for C7: an exhausted cursor yields three straight
"no row" outcomes and `none` at the row-set level. -/
theorem fetch_idempotent_at_exhaustion_witness :
    (Cursor.new exhaustedStatement).exhausted = true
    ∧ ((Cursor.new exhaustedStatement).fetchN 3).1
        = List.replicate 3 (Except.ok false)
    ∧ ((RowSetCursor.new 0 (Cursor.new exhaustedStatement)).fetch).1
        = Except.ok none := by
  have h := fetch_idempotent_at_exhaustion (Cursor.new exhaustedStatement) 0 rfl 3
  exact ⟨rfl, h.1, h.2.2⟩

/-- Claim C6: `bind_row_set_buffer` invokes the buffer's binding
capability against this cursor once; if the binding succeeds the
result is a `RowSetCursor` pairing exactly that buffer with exactly
this cursor (in their post-binding states), and if it fails that error
is returned and no `RowSetCursor` is produced. -/
theorem bind_row_set_buffer_spec {B : Type} (impl : RowSetBufferImpl B)
    (c : Cursor) (buf : B) :
    (∀ buf2 c2 tr, impl.bind_to_cursor buf c = (Except.ok (), buf2, c2, tr) →
        Cursor.bind_row_set_buffer impl c buf
          = (Except.ok (RowSetCursor.new buf2 c2), buf2, c2, tr))
    ∧ (∀ e buf2 c2 tr,
        impl.bind_to_cursor buf c = (Except.error e, buf2, c2, tr) →
        (Cursor.bind_row_set_buffer impl c buf).1 = Except.error e) := by
  constructor
  · intro buf2 c2 tr h
    simp [Cursor.bind_row_set_buffer, h]
  · intro e buf2 c2 tr h
    simp [Cursor.bind_row_set_buffer, h]

/-- Witness for C6: a succeeding binding capability over buffer `5`
produces a row-set cursor pairing that buffer with the post-binding
cursor. -/
theorem bind_row_set_buffer_spec_witness :
    Cursor.bind_row_set_buffer okBindImpl (Cursor.new okStatement) 5
      = (Except.ok (RowSetCursor.new 5 boundOneCursor), 5, boundOneCursor,
         [HandleCall.bindCol 1 argsA]) :=
  (bind_row_set_buffer_spec okBindImpl (Cursor.new okStatement) 5).1
    5 boundOneCursor [HandleCall.bindCol 1 argsA] rfl

/-- Claim C8: a successful `unbind_cols` releases every column binding
except the bookmark column: afterwards no non-bookmark column remains
bound and every bookmark binding present before is still present. -/
theorem unbind_cols_releases_all_but_bookmark (c : Cursor)
    (h : c.statement.unbindColsR = Except.ok ()) :
    (c.unbind_cols).1 = Except.ok ()
    ∧ ((c.unbind_cols).2.1).statement.bindings
        = c.statement.bindings.filter (fun b => b.1 == 0)
    ∧ (∀ b ∈ ((c.unbind_cols).2.1).statement.bindings, b.1 = 0)
    ∧ (∀ b ∈ c.statement.bindings, b.1 = 0 →
          b ∈ ((c.unbind_cols).2.1).statement.bindings) := by
  refine ⟨?_, ?_, ?_, ?_⟩ <;>
    simp [Cursor.unbind_cols, Statement.unbind_cols, Cursor.new, h]
  intro a bargs hb hzero
  simpa [List.mem_filter, hzero] using hb

/-- Witness for C8 at a cursor with bindings on columns 0, 1, 2: only
the bookmark binding survives the unbind. -/
theorem unbind_cols_releases_all_but_bookmark_witness :
    (Cursor.new boundStatement).statement.unbindColsR = Except.ok ()
    ∧ (((Cursor.new boundStatement).unbind_cols).2.1).statement.bindings
        = [(0, argsA)] := by
  have h := unbind_cols_releases_all_but_bookmark (Cursor.new boundStatement) rfl
  exact ⟨rfl, (h.2.1).trans (by decide)⟩

/-- Claim C10: when the binding capability fails inside
`bind_row_set_buffer`, the error is returned immediately, no
`RowSetCursor` is constructed, the trace is exactly the capability's
own trace (so no unbind call is added on this path), and whatever
bindings the capability registered before failing remain registered. -/
theorem bind_row_set_buffer_error_no_rollback {B : Type}
    (impl : RowSetBufferImpl B) (c : Cursor) (buf : B) (e : Error)
    (buf2 : B) (c2 : Cursor) (tr : List HandleCall)
    (h : impl.bind_to_cursor buf c = (Except.error e, buf2, c2, tr)) :
    (Cursor.bind_row_set_buffer impl c buf).1 = Except.error e
    ∧ (Cursor.bind_row_set_buffer impl c buf).2.2.1 = c2
    ∧ (Cursor.bind_row_set_buffer impl c buf).2.2.2 = tr
    ∧ ((Cursor.bind_row_set_buffer impl c buf).2.2.1).statement.bindings
        = c2.statement.bindings
    ∧ (HandleCall.unbindCols ∉ tr →
        HandleCall.unbindCols ∉ (Cursor.bind_row_set_buffer impl c buf).2.2.2) := by
  refine ⟨?_, ?_, ?_, ?_, ?_⟩ <;>
    simp [Cursor.bind_row_set_buffer, h]

/-- Witness for C10: a capability that binds column 1 and then fails
leaves that binding registered, the error is returned and the trace
holds only the bind call. -/
theorem bind_row_set_buffer_error_no_rollback_witness :
    (Cursor.bind_row_set_buffer failAfterBindImpl (Cursor.new okStatement) 0).1
      = Except.error ⟨9⟩
    ∧ (Cursor.bind_row_set_buffer failAfterBindImpl
        (Cursor.new okStatement) 0).2.2.1 = boundOneCursor
    ∧ (Cursor.bind_row_set_buffer failAfterBindImpl
        (Cursor.new okStatement) 0).2.2.2 = [HandleCall.bindCol 1 argsA]
    ∧ ((Cursor.bind_row_set_buffer failAfterBindImpl
        (Cursor.new okStatement) 0).2.2.1).statement.bindings = [(1, argsA)] := by
  have h := bind_row_set_buffer_error_no_rollback failAfterBindImpl
    (Cursor.new okStatement) 0 ⟨9⟩ 0 boundOneCursor
    [HandleCall.bindCol 1 argsA] rfl
  exact ⟨h.1, h.2.1, h.2.2.1, (h.2.2.2.1).trans (by decide)⟩

end OdbcCursor
